import Mathlib

/-!
Formal model of the gtfs_bus transit normalization and radius-window query
core (src/buses_app.py and src/ingest/ingest_gtfs.py), as a shallow
embedding: DuckDB tables become lists of typed rows, pandas frames become
column-tagged row lists, numeric (floating point) columns are modelled as
rationals, and fallible Python code returns Option/Except.
-/

/- ### Models of the Python builtins used by both source files -/

/-- Value of a nonempty list of decimal digit characters; none otherwise. -/
def digitsToNat (l : List Char) : Option Nat :=
  if l ≠ [] ∧ l.all Char.isDigit then
    some (l.foldl (fun acc c => acc * 10 + (c.toNat - 48)) 0)
  else none

/-- Models the Python builtin int() applied to a decimal string: an optional
sign followed by digits. (CPython additionally strips surrounding whitespace
and permits underscore digit separators; no input in this development uses
those forms.) -/
def pyInt (s : String) : Option Int :=
  match s.data with
  | '+' :: rest => (digitsToNat rest).map (fun n => (n : Int))
  | '-' :: rest => (digitsToNat rest).map (fun n => -(n : Int))
  | l => (digitsToNat l).map (fun n => (n : Int))

/-- Models Python str.split with a one-character separator: splits at every
occurrence, keeping empty segments, and yields one (empty) segment for the
empty string. -/
def splitOnChar (sep : Char) : List Char → List (List Char)
  | [] => [[]]
  | c :: rest =>
    match splitOnChar sep rest with
    | [] => [[]]
    | w :: ws => if c = sep then [] :: w :: ws else (c :: w) :: ws

/-- Python s.split(sep) for a one-character separator, on strings. -/
def pySplit (sep : Char) (s : String) : List String :=
  (splitOnChar sep s.data).map (fun w => String.mk w)

namespace BusesApp

/-- to_sec from src/buses_app.py (lines 32-35):
hh, mm, *rest = hms.split(":"); ss = int(rest[0]) if rest else 0;
return int(hh)*3600 + int(mm)*60 + ss.  A failed unpack (fewer than two
fields) or a failed int() raises ValueError, modelled as none. -/
def to_sec (hms : String) : Option Int :=
  match pySplit ':' hms with
  | hh :: mm :: rest =>
    let ss : Option Int :=
      match rest with
      | [] => some 0
      | r0 :: _ => pyInt r0
    match pyInt hh, pyInt mm, ss with
    | some h, some m, some s => some (h * 3600 + m * 60 + s)
    | _, _, _ => none
  | _ => none

end BusesApp

/- ### The star-schema data model (the parquet tables of the Dataset Store).
Only the columns the query engine references are modelled; float columns
(coordinates) are modelled as rationals. -/

/-- One dim_stops row. -/
structure StopRow where
  stop_id : String
  stop_name : String
  lat : ℚ
  lon : ℚ
  feed_id : String
  x2263 : ℚ
  y2263 : ℚ
deriving DecidableEq

/-- One dim_trips row (trip_headsign is never referenced by the query). -/
structure TripRow where
  trip_id : String
  route_id : String
  direction_id : Int
  service_id : String
  feed_id : String
deriving DecidableEq

/-- One dim_routes row (only feed_id and route_id are referenced). -/
structure RouteRow where
  route_id : String
  feed_id : String
deriving DecidableEq

/-- One calendar_base row: service key plus the seven day-of-week flags. -/
structure CalRow where
  service_id : String
  monday : Int
  tuesday : Int
  wednesday : Int
  thursday : Int
  friday : Int
  saturday : Int
  sunday : Int
  feed_id : String
deriving DecidableEq

/-- One fact_stop_events row. -/
structure FactRow where
  route_id : String
  direction_id : Int
  service_id : String
  stop_id : String
  stop_sequence : Int
  arrival_sec : Int
  trip_id : String
  feed_id : String
deriving DecidableEq

/-- The persisted star schema read by the query. -/
structure Store where
  dim_stops : List StopRow
  dim_trips : List TripRow
  dim_routes : List RouteRow
  calendar_base : List CalRow
  fact_stop_events : List FactRow

namespace BusesApp

/- ### The radius-window query (buses_by_stop_route_dir_within_radius,
src/buses_app.py lines 37-129), CTE by CTE. -/

/-- The feed_pred SQL fragment (lines 58-65): with a nonempty selection it is
membership in chosen_feeds, with an empty selection it is the literal TRUE. -/
def feedPred (sel : List String) (fid : String) : Bool :=
  if sel.isEmpty then true else sel.contains fid

/-- The day-type disjunction in the svcs CTE (lines 79-83). -/
def dayActive (day : String) (c : CalRow) : Bool :=
  (day == "Weekday" &&
      (c.monday == 1 || c.tuesday == 1 || c.wednesday == 1 || c.thursday == 1 || c.friday == 1))
    || (day == "Saturday" && c.saturday == 1)
    || (day == "Sunday" && c.sunday == 1)

/-- A row of the svcs CTE: SELECT DISTINCT feed_id, service_id. -/
structure Svc where
  feed_id : String
  service_id : String
deriving DecidableEq

/-- The svcs CTE (lines 75-84). -/
def svcs (store : Store) (day : String) (sel : List String) : List Svc :=
  ((store.calendar_base.filter (fun c => feedPred sel c.feed_id && dayActive day c)).map
    (fun c => Svc.mk c.feed_id c.service_id)).dedup

/-- A row of the near_stops CTE: SELECT stop_id, stop_name, lat, lon
(note: it does not select feed_id). -/
structure NearStop where
  stop_id : String
  stop_name : String
  lat : ℚ
  lon : ℚ
deriving DecidableEq

/-- The spatial predicate of the near_stops CTE (line 90):
((x2263 - x0)*(x2263 - x0) + (y2263 - y0)*(y2263 - y0)) <= r*r. -/
def nearCond (x0 y0 : ℚ) (radius_ft : Int) (st : StopRow) : Bool :=
  decide ((st.x2263 - x0) * (st.x2263 - x0) + (st.y2263 - y0) * (st.y2263 - y0)
    ≤ (radius_ft : ℚ) * (radius_ft : ℚ))

/-- The near_stops CTE (lines 86-91). -/
def nearStops (store : Store) (x0 y0 : ℚ) (radius_ft : Int) (sel : List String) : List NearStop :=
  (store.dim_stops.filter (fun st => feedPred sel st.feed_id && nearCond x0 y0 radius_ft st)).map
    (fun st => NearStop.mk st.stop_id st.stop_name st.lat st.lon)

/-- The WHERE clause on the time window (lines 107-116): either e >= s and
arrival BETWEEN s AND e (inclusive), or e < s (midnight wrap) and
arrival >= s OR arrival <= e. -/
def windowMatch (s e a : Int) : Bool :=
  (decide (e ≥ s) && decide (s ≤ a) && decide (a ≤ e))
    || (decide (e < s) && (decide (a ≥ s) || decide (a ≤ e)))

/-- One fully joined tuple before grouping. -/
structure Joined where
  f : FactRow
  t : TripRow
  r : RouteRow
  v : Svc
  s : NearStop
deriving DecidableEq

/-- The conjunction of the four ON conditions (lines 102-105) and the window
WHERE clause, exactly as written: the routes, svcs and near_stops joins each
repeat f.feed_id = t.feed_id instead of matching the joined table's own
feed_id. -/
def onAndWhere (s e : Int) (j : Joined) : Bool :=
  (j.f.feed_id == j.t.feed_id && j.f.trip_id == j.t.trip_id)
    && (j.f.feed_id == j.t.feed_id && j.t.route_id == j.r.route_id)
    && (j.f.feed_id == j.t.feed_id && j.v.service_id == j.f.service_id)
    && (j.f.feed_id == j.t.feed_id && j.s.stop_id == j.f.stop_id)
    && windowMatch s e j.f.arrival_sec

/-- The chain of inner joins (lines 101-116) under relational semantics: all
combinations of rows satisfying every ON condition and the WHERE clause. -/
def joinedRows (fact : List FactRow) (trips : List TripRow) (routes : List RouteRow)
    (sv : List Svc) (ns : List NearStop) (s e : Int) : List Joined :=
  fact.flatMap (fun f =>
    trips.flatMap (fun t =>
      routes.flatMap (fun r =>
        sv.flatMap (fun v =>
          ns.filterMap (fun st =>
            if onAndWhere s e (Joined.mk f t r v st) then some (Joined.mk f t r v st)
            else none)))))

/-- The GROUP BY key (line 117): r.feed_id, r.route_id, t.direction_id,
s.stop_id, s.stop_name, s.lat, s.lon. -/
structure GKey where
  feed_id : String
  route_id : String
  direction_id : Int
  stop_id : String
  stop_name : String
  stop_lat : ℚ
  stop_lon : ℚ
deriving DecidableEq

/-- Key of one joined tuple. -/
def groupKey (j : Joined) : GKey :=
  GKey.mk j.r.feed_id j.r.route_id j.t.direction_id j.s.stop_id j.s.stop_name j.s.lat j.s.lon

/-- One result row (SELECT list, lines 92-100). -/
structure OutRow where
  feed_id : String
  route_id : String
  direction_id : Int
  stop_id : String
  stop_name : String
  stop_lat : ℚ
  stop_lon : ℚ
  buses_scheduled : Nat
deriving DecidableEq

/-- GROUP BY + COUNT(*) (lines 100, 117): one output row per distinct key,
counting the joined tuples with that key. -/
def aggregate (rows : List Joined) : List OutRow :=
  ((rows.map groupKey).dedup).map (fun k =>
    OutRow.mk k.feed_id k.route_id k.direction_id k.stop_id k.stop_name k.stop_lat k.stop_lon
      (rows.countP (fun j => groupKey j == k)))

/-- The ORDER BY comparison (line 118): stop_name, feed_id, route_id,
direction_id. -/
def rowLe (a b : OutRow) : Bool :=
  match compare a.stop_name b.stop_name with
  | .lt => true
  | .gt => false
  | .eq =>
    match compare a.feed_id b.feed_id with
    | .lt => true
    | .gt => false
    | .eq =>
      match compare a.route_id b.route_id with
      | .lt => true
      | .gt => false
      | .eq => decide (a.direction_id ≤ b.direction_id)

/-- Insertion step of the ORDER BY sort. -/
def insertRow (a : OutRow) : List OutRow → List OutRow
  | [] => [a]
  | b :: l => if rowLe a b then a :: b :: l else b :: insertRow a l

/-- The ORDER BY sort (line 118). -/
def sortRows : List OutRow → List OutRow
  | [] => []
  | a :: l => insertRow a (sortRows l)

/-- Number of ? placeholders in the generated SQL text: the chosen_feeds
VALUES list (one per selected feed, present only when the selection is
nonempty), plus 3 day-type, 2 window and 6 spatial placeholders, which are
always present (lines 60-61, 80-82, 85, 90). -/
def placeholderCount (sel : List String) : Nat :=
  (if sel.isEmpty then 0 else sel.length) + 3 + 2 + 6

/-- Number of parameters actually bound (lines 121-126): the params list is
populated only inside the `if sel:` branch, so an empty selection binds
nothing at all. -/
def boundParamCount (sel : List String) : Nat :=
  if sel.isEmpty then 0 else sel.length + 3 + 2 + 6

/-- The ways an invocation can raise instead of returning rows: a ValueError
from to_sec on a malformed time string, or the database driver rejecting a
prepared statement whose placeholder and parameter counts differ. -/
inductive QueryFailure where
  | timeParse : QueryFailure
  | bindMismatch : Nat → Nat → QueryFailure
deriving DecidableEq

/-- buses_by_stop_route_dir_within_radius (src/buses_app.py lines 37-129).
The caller's (lon, lat) is projected to state-plane feet by pyproj (an
external library); the embedding takes the projected point (x0, y0)
directly, since the same projection is applied to both the query point and
the stored stop coordinates. -/
def buses_by_stop_route_dir_within_radius (x0 y0 : ℚ) (start_time end_time day_type : String)
    (radius_ft : Int) (selected_feeds : List String) (store : Store) :
    Except QueryFailure (List OutRow) :=
  match to_sec start_time, to_sec end_time with
  | some s, some e =>
    if boundParamCount selected_feeds = placeholderCount selected_feeds then
      Except.ok (sortRows (aggregate (joinedRows store.fact_stop_events store.dim_trips
        store.dim_routes (svcs store day_type selected_feeds)
        (nearStops store x0 y0 radius_ft selected_feeds) s e)))
    else
      Except.error (QueryFailure.bindMismatch (placeholderCount selected_feeds)
        (boundParamCount selected_feeds))
  | _, _ => Except.error QueryFailure.timeParse

end BusesApp

namespace IngestGtfs

/- ### The feed normalizer (src/ingest/ingest_gtfs.py). -/

/-- to_sec from src/ingest/ingest_gtfs.py (lines 8-10):
h, m, s = list(map(int, (hms+":00").split(":")[:3])); a failed unpack
(fewer than three fields after padding) or a failed int() raises
ValueError, modelled as none. -/
def to_sec (hms : String) : Option Int :=
  match (pySplit ':' (hms ++ ":00")).take 3 with
  | [a, b, c] =>
    match pyInt a, pyInt b, pyInt c with
    | some h, some m, some s => some (h * 3600 + m * 60 + s)
    | _, _, _ => none
  | _ => none

/- A pandas DataFrame is modelled by an ordered column list plus one
association list of cells per row; a cell is an optional scalar (none is the
pandas null), scalars being kept as strings since the normalizer never
computes with them. -/

/-- A cell: none models a pandas null. -/
abbrev Cell := Option String

/-- One data row: column name to cell, in column order. -/
abbrev DRow := List (String × Cell)

/-- A pandas DataFrame. -/
structure DF where
  cols : List String
  rows : List DRow

/-- Value of a row at a column (null when the column is absent). -/
def lookupCell (r : DRow) (c : String) : Cell :=
  match r with
  | [] => none
  | p :: rest => if p.1 == c then p.2 else lookupCell rest c

/-- Set a column's value in one row: replace in place, or append when the
column is new (pandas appends new columns on the right). -/
def setCell (r : DRow) (c : String) (v : Cell) : DRow :=
  match r with
  | [] => [(c, v)]
  | p :: rest => if p.1 == c then (c, v) :: setCell rest c v else p :: setCell rest c v

/-- Column membership, df.columns. -/
def DF.hasCol (df : DF) (c : String) : Bool :=
  df.cols.contains c

/-- df[c] = v with a constant v (also .assign with a constant). -/
def DF.assignConst (df : DF) (c : String) (v : Cell) : DF :=
  DF.mk (if df.cols.contains c then df.cols else df.cols ++ [c])
    (df.rows.map (fun r => setCell r c v))

/-- df[c] = f(df[c]), an elementwise rewrite of one column (astype). -/
def DF.mapCol (df : DF) (c : String) (fn : Cell → Cell) : DF :=
  DF.mk df.cols (df.rows.map (fun r => setCell r c (fn (lookupCell r c))))

/-- df.rename(columns=...), as a function on column labels. -/
def DF.renameCols (df : DF) (fn : String → String) : DF :=
  DF.mk (df.cols.map fn) (df.rows.map (fun r => r.map (fun p => (fn p.1, p.2))))

/-- df[[cs]]: project onto the listed columns in the listed order; a missing
column raises KeyError, modelled as none. -/
def DF.select (df : DF) (cs : List String) : Option DF :=
  if cs.all (fun c => df.cols.contains c) then
    some (DF.mk cs (df.rows.map (fun r => cs.map (fun c => (c, lookupCell r c)))))
  else none

/-- df[c] = f(row) with a per-row value (used for the projected x/y columns). -/
def DF.assignWith (df : DF) (c : String) (fn : DRow → Cell) : DF :=
  DF.mk (if df.cols.contains c then df.cols else df.cols ++ [c])
    (df.rows.map (fun r => setCell r c (fn r)))

/-- The per-table loop `for c in COLS: if c not in df.columns: df[c] = None`
(lines 59-61 and 73-75). -/
def fillMissing (df : DF) (cs : List String) : DF :=
  cs.foldl (fun d c => if d.hasCol c then d else d.assignConst c none) df

/-- The required, ordered stop columns (line 58). -/
def STOP_COLS : List String :=
  ["stop_id", "stop_name", "stop_desc", "lat", "lon", "location_type", "parent_station",
   "zone_id", "feed_id"]

/-- The required, ordered route columns (line 72). -/
def ROUTES_COLS : List String :=
  ["route_id", "agency_id", "route_short_name", "route_long_name", "route_desc", "route_type",
   "route_color", "route_text_color", "feed_id"]

/-- The trip columns selected on line 70. -/
def TRIP_COLS : List String :=
  ["trip_id", "route_id", "direction_id", "service_id", "trip_headsign"]

/-- The stops rename map (line 52): stop_lat to lat, stop_lon to lon. -/
def stopRename (c : String) : String :=
  if c == "stop_lat" then "lat" else if c == "stop_lon" then "lon" else c

/-- pandas .astype(str) on a cell: a null prints as the string nan. -/
def pyStr (v : Cell) : Cell :=
  some (v.getD "nan")

/-- Stops, lines 51-54: rename the coordinate columns and stamp feed_id. -/
def stopsStage0 (feed_id : String) (raw : DF) : DF :=
  (raw.renameCols stopRename).assignConst "feed_id" (some feed_id)

/-- Stops, lines 56-57: force stop_desc to string when the column exists. -/
def stopsStage1 (feed_id : String) (raw : DF) : DF :=
  if (stopsStage0 feed_id raw).hasCol "stop_desc" then
    (stopsStage0 feed_id raw).mapCol "stop_desc" pyStr
  else stopsStage0 feed_id raw

/-- Stops, lines 58-61: null-fill the required columns that are absent. -/
def stopsStage2 (feed_id : String) (raw : DF) : DF :=
  fillMissing (stopsStage1 feed_id raw) STOP_COLS

/-- The stops branch of build_one (lines 51-67): rename coordinates, stamp
feed_id, force stop_desc to string when present, null-fill the missing
required columns, project onto STOP_COLS, then append the x2263/y2263
columns computed by the external pyproj transform (passed in as proj). -/
def normStops (feed_id : String) (proj : Cell → Cell → Cell × Cell) (raw : DF) : Option DF :=
  ((stopsStage2 feed_id raw).select STOP_COLS).map (fun d =>
    (d.assignWith "x2263" (fun r => (proj (lookupCell r "lon") (lookupCell r "lat")).1)).assignWith
      "y2263" (fun r => (proj (lookupCell r "lon") (lookupCell r "lat")).2))

/-- Routes, lines 71-75: stamp feed_id, then null-fill the absent required
columns. -/
def routesStage (feed_id : String) (raw : DF) : DF :=
  fillMissing (raw.assignConst "feed_id" (some feed_id)) ROUTES_COLS

/-- The routes branch of build_one (lines 71-76): stamp feed_id, null-fill
the missing required columns, project onto ROUTES_COLS. -/
def normRoutes (feed_id : String) (raw : DF) : Option DF :=
  (routesStage feed_id raw).select ROUTES_COLS

/-- The trips branch of build_one (line 70): a direct column selection (which
raises KeyError when any listed column is absent), then the feed_id stamp. -/
def normTrips (feed_id : String) (raw : DF) : Option DF :=
  (raw.select TRIP_COLS).map (fun d => d.assignConst "feed_id" (some feed_id))

/-- The calendar branch of build_one (line 77): only the feed_id stamp. -/
def normCalendar (feed_id : String) (raw : DF) : DF :=
  raw.assignConst "feed_id" (some feed_id)

/- ### The fact-table build (lines 80-85), on typed rows: by this point the
stop_times frame has been projected onto trip_id, stop_id, stop_sequence,
arrival_time and the trips frame onto TRIP_COLS plus feed_id. -/

/-- One raw stop_times row after the line-80 projection. -/
structure RawStopTime where
  trip_id : String
  stop_id : String
  stop_sequence : Int
  arrival_time : String
deriving DecidableEq

/-- One trips row after line 70. -/
structure IngTrip where
  trip_id : String
  route_id : String
  direction_id : Int
  service_id : String
  trip_headsign : String
  feed_id : String
deriving DecidableEq

/-- st["arrival_sec"] = st["arrival_time"].map(to_sec) on one row (line 81);
a ValueError from to_sec aborts the whole build. -/
def withSec (s0 : RawStopTime) : Option (RawStopTime × Int) :=
  (to_sec s0.arrival_time).map (fun sec => (s0, sec))

/-- The stop-event rows contributed by one stop_time row: one per trips row
with an equal trip_id (pandas how="inner" merge on trip_id), carrying the
line-84 column selection and the line-85 feed_id stamp. -/
def factFromPair (feed_id : String) (trips : List IngTrip) (p : RawStopTime × Int) :
    List FactRow :=
  (trips.filter (fun tr => tr.trip_id == p.1.trip_id)).map (fun tr =>
    FactRow.mk tr.route_id tr.direction_id tr.service_id p.1.stop_id p.1.stop_sequence p.2
      p.1.trip_id feed_id)

/-- fact_stop_events for one feed (lines 80-85): arrival_sec computed per
stop_time row, then the inner join of stop_times to trips on trip_id. -/
def factTable (feed_id : String) (sts : List RawStopTime) (trips : List IngTrip) :
    Option (List FactRow) :=
  (sts.mapM withSec).map (fun sts2 => sts2.flatMap (factFromPair feed_id trips))

end IngestGtfs

/- ### Concrete fixtures used to evaluate the embedded code on explicit
inputs. -/

/-- Two feeds that reuse the raw identifiers 101 (stop), R1 (route) and S
(service) at different locations: feed A owns the stop at the query point,
feed B owns the trip, route and stop event. -/
def storeAB : Store :=
  Store.mk
    [StopRow.mk "101" "Stop A" 1 2 "A" 0 0,
     StopRow.mk "101" "Stop B" 3 4 "B" 100000 100000]
    [TripRow.mk "T1" "R1" 0 "S" "B"]
    [RouteRow.mk "R1" "B"]
    [CalRow.mk "S" 1 1 1 1 1 0 0 "A",
     CalRow.mk "S" 1 1 1 1 1 0 0 "B"]
    [FactRow.mk "R1" 0 "S" "101" 1 28800 "T1" "B"]

/-- A single clean feed F: one stop at the query point, one weekday trip with
one 08:00:00 stop event. -/
def storeOne : Store :=
  Store.mk
    [StopRow.mk "S1" "Main St" 5 6 "F" 0 0]
    [TripRow.mk "T1" "B1" 0 "WK" "F"]
    [RouteRow.mk "B1" "F"]
    [CalRow.mk "WK" 1 1 1 1 1 0 0 "F"]
    [FactRow.mk "B1" 0 "WK" "S1" 1 28800 "T1" "F"]

/-- The single result row of storeOne's weekday 07:45-08:45 query. -/
def rowOne : BusesApp.OutRow :=
  BusesApp.OutRow.mk "F" "B1" 0 "S1" "Main St" 5 6 1

/-- A calendar entry active only on Saturday. -/
def calSatOnly : CalRow :=
  CalRow.mk "SAT" 0 0 0 0 0 1 0 "A"

/-- A store whose only calendar entry is Saturday-only. -/
def storeSat : Store :=
  Store.mk [] [] [] [calSatOnly] []

/-- A stop at planar distance exactly 5 from the origin. -/
def stopOnBoundary : StopRow :=
  StopRow.mk "B1" "Boundary" 0 0 "A" 3 4

/-- A stop strictly farther than 5 from the origin. -/
def stopBeyond : StopRow :=
  StopRow.mk "B2" "Beyond" 0 0 "A" 3 5

/-- A raw trips table lacking the trip_headsign column. -/
def rawTripsNoHeadsign : IngestGtfs.DF :=
  IngestGtfs.DF.mk ["trip_id", "route_id", "direction_id", "service_id"]
    [[("trip_id", some "T1"), ("route_id", some "R1"), ("direction_id", some "0"),
      ("service_id", some "S")]]

/-- A raw trips table lacking the service_id column. -/
def rawTripsNoService : IngestGtfs.DF :=
  IngestGtfs.DF.mk ["trip_id", "route_id", "direction_id", "trip_headsign"]
    [[("trip_id", some "T2"), ("route_id", some "R2"), ("direction_id", some "1"),
      ("trip_headsign", some "downtown")]]

/-- A raw stops table with only the identifier and coordinate columns. -/
def rawStopsMini : IngestGtfs.DF :=
  IngestGtfs.DF.mk ["stop_id", "stop_lat", "stop_lon"]
    [[("stop_id", some "101"), ("stop_lat", some "40.75"), ("stop_lon", some "-73.98")]]

/-- A stand-in for the pyproj transform in fixtures. -/
def projZero : IngestGtfs.Cell → IngestGtfs.Cell → IngestGtfs.Cell × IngestGtfs.Cell :=
  fun _ _ => (some "0", some "0")

/-- A stop_time whose trip exists. -/
def stMatched : IngestGtfs.RawStopTime :=
  IngestGtfs.RawStopTime.mk "T1" "S1" 1 "08:00:00"

/-- A stop_time whose trip_id matches no trip. -/
def stOrphan : IngestGtfs.RawStopTime :=
  IngestGtfs.RawStopTime.mk "TX" "S2" 1 "09:00:00"

/-- The single trip of the C9 fixture. -/
def trFixture : IngestGtfs.IngTrip :=
  IngestGtfs.IngTrip.mk "T1" "R1" 0 "WK" "downtown" "F"

/- ### Helper lemmas -/

theorem flatMap_nil_of {α β : Type} (l : List α) (f : α → List β) (h : ∀ a ∈ l, f a = []) :
    l.flatMap f = [] := by
  induction l with
  | nil => rfl
  | cons a l ih =>
    simp only [List.flatMap_cons, h a (by simp), List.nil_append]
    exact ih (fun x hx => h x (by simp [hx]))

theorem mem_insertRow {x a : BusesApp.OutRow} {l : List BusesApp.OutRow} :
    x ∈ BusesApp.insertRow a l ↔ x = a ∨ x ∈ l := by
  induction l with
  | nil => simp [BusesApp.insertRow]
  | cons b l ih =>
    by_cases h : BusesApp.rowLe a b = true
    · simp [BusesApp.insertRow, h]
    · simp only [BusesApp.insertRow, if_neg h, List.mem_cons, ih]
      tauto

theorem mem_sortRows {x : BusesApp.OutRow} {l : List BusesApp.OutRow} :
    x ∈ BusesApp.sortRows l ↔ x ∈ l := by
  induction l with
  | nil => simp [BusesApp.sortRows]
  | cons a l ih => simp [BusesApp.sortRows, mem_insertRow, ih]

theorem splitOnChar_ne_nil (sep : Char) (l : List Char) : splitOnChar sep l ≠ [] := by
  cases l with
  | nil => simp [splitOnChar]
  | cons c rest =>
    simp only [splitOnChar]
    cases h : splitOnChar sep rest with
    | nil => simp
    | cons w ws =>
      by_cases hc : c = sep
      · simp [hc]
      · simp [hc]

theorem splitOnChar_append_sep (sep : Char) (l m : List Char) :
    splitOnChar sep (l ++ sep :: m) = splitOnChar sep l ++ splitOnChar sep m := by
  induction l with
  | nil =>
    simp only [List.nil_append, splitOnChar]
    cases h : splitOnChar sep m with
    | nil => exact absurd h (splitOnChar_ne_nil sep m)
    | cons w ws => simp
  | cons c l ih =>
    rw [List.cons_append]
    simp only [splitOnChar]
    rw [ih]
    cases h : splitOnChar sep l with
    | nil => exact absurd h (splitOnChar_ne_nil sep l)
    | cons w ws =>
      by_cases hc : c = sep
      · simp [hc]
      · simp [hc]

theorem pySplit_pad (s : String) :
    pySplit ':' (s ++ ":00") = pySplit ':' s ++ ["00"] := by
  have hdata : (s ++ ":00").data = s.data ++ ':' :: ('0' :: '0' :: []) := by
    rw [String.data_append]
  simp only [pySplit, hdata, splitOnChar_append_sep, List.map_append]
  rfl

/- ### C4: the temporal window rule -/

/-- C4: a stop-event with arrival a matches a window with start s and end e
iff s ≤ a ≤ e when e ≥ s, and iff a ≥ s or a ≤ e when e < s (midnight
wrap); exactly one of the two branches applies to any window. -/
theorem window_rule_total_and_inclusive (s e a : Int) :
    (e ≥ s → (BusesApp.windowMatch s e a = true ↔ (s ≤ a ∧ a ≤ e)))
    ∧ (e < s → (BusesApp.windowMatch s e a = true ↔ (a ≥ s ∨ a ≤ e)))
    ∧ ((e ≥ s) ↔ ¬(e < s)) := by
  refine ⟨fun h => ?_, fun h => ?_, by omega⟩ <;>
    simp only [BusesApp.windowMatch, Bool.or_eq_true, Bool.and_eq_true, decide_eq_true_eq] <;>
    omega

/-- Witness for C4 on the spec's 23:30-00:30 example window. -/
theorem window_rule_witness :
    BusesApp.windowMatch 84600 1800 85500 = true
      ∧ BusesApp.windowMatch 84600 1800 900 = true
      ∧ BusesApp.windowMatch 84600 1800 43200 = false := by
  have h1 := (window_rule_total_and_inclusive 84600 1800 85500).2.1 (by decide)
  have h2 := (window_rule_total_and_inclusive 84600 1800 900).2.1 (by decide)
  have h3 := (window_rule_total_and_inclusive 84600 1800 43200).2.1 (by decide)
  refine ⟨h1.mpr (by omega), h2.mpr (by omega), ?_⟩
  cases hw : BusesApp.windowMatch 84600 1800 43200 with
  | false => rfl
  | true => rcases h3.mp hw with hx | hx <;> omega

/- ### C6: the time-of-day parsers -/

/-- C6 counterexample: the input 1:2:3:ab carries a non-numeric fourth field,
yet both parsers accept it (returning 1*3600 + 2*60 + 3) instead of failing. -/
theorem time_parse_extra_field_counterexample :
    BusesApp.to_sec "1:2:3:ab" = some 3723 ∧ IngestGtfs.to_sec "1:2:3:ab" = some 3723 := by
  exact ⟨rfl, rfl⟩

/-- C6 amended: on HH:MM the parsers return HH*3600 + MM*60, on HH:MM:SS they
return HH*3600 + MM*60 + SS (hours above 23 included, without wrapping);
they fail when either of the first two fields is non-numeric, when the third
field, consumed whenever it is present, is non-numeric, or when there is
only one field; fields beyond the three consumed ones are ignored, and the
failure is the host language's ValueError (no FormatError type exists in
the code). -/
theorem time_parse_amended :
    (∀ (hms hh mm : String) (h m : Int), pySplit ':' hms = [hh, mm] →
      pyInt hh = some h → pyInt mm = some m →
      BusesApp.to_sec hms = some (h * 3600 + m * 60)
        ∧ IngestGtfs.to_sec hms = some (h * 3600 + m * 60))
    ∧ (∀ (hms hh mm sf : String) (h m s : Int), pySplit ':' hms = [hh, mm, sf] →
      pyInt hh = some h → pyInt mm = some m → pyInt sf = some s →
      BusesApp.to_sec hms = some (h * 3600 + m * 60 + s)
        ∧ IngestGtfs.to_sec hms = some (h * 3600 + m * 60 + s))
    ∧ (∀ (hms hh mm : String) (rest : List String), pySplit ':' hms = hh :: mm :: rest →
      (pyInt hh = none ∨ pyInt mm = none) →
      BusesApp.to_sec hms = none ∧ IngestGtfs.to_sec hms = none)
    ∧ (∀ (hms hh mm sf : String) (rest2 : List String),
      pySplit ':' hms = hh :: mm :: sf :: rest2 → pyInt sf = none →
      BusesApp.to_sec hms = none ∧ IngestGtfs.to_sec hms = none)
    ∧ (∀ (hms w : String), pySplit ':' hms = [w] →
      BusesApp.to_sec hms = none ∧ IngestGtfs.to_sec hms = none) := by
  refine ⟨?_, ?_, ?_, ?_, ?_⟩
  · intro hms hh mm h m hsplit hh1 hm1
    constructor
    · unfold BusesApp.to_sec
      rw [hsplit]
      simp only [hh1, hm1, Option.some.injEq]
      omega
    · unfold IngestGtfs.to_sec
      rw [pySplit_pad, hsplit]
      have h00 : pyInt "00" = some 0 := rfl
      simp only [List.cons_append, List.nil_append, List.take, hh1, hm1, h00,
        Option.some.injEq]
      omega
  · intro hms hh mm sf h m s hsplit hh1 hm1 hs1
    constructor
    · unfold BusesApp.to_sec
      rw [hsplit]
      simp only [hh1, hm1, hs1]
    · unfold IngestGtfs.to_sec
      rw [pySplit_pad, hsplit]
      simp only [List.cons_append, List.nil_append, List.take, hh1, hm1, hs1]
  · intro hms hh mm rest hsplit hbad
    constructor
    · unfold BusesApp.to_sec
      rw [hsplit]
      rcases hbad with hb | hb
      · simp [hb]
      · cases hh0 : pyInt hh <;> simp [hh0, hb]
    · unfold IngestGtfs.to_sec
      rw [pySplit_pad, hsplit]
      cases rest with
      | nil =>
        rcases hbad with hb | hb
        · simp [hb]
        · cases hh0 : pyInt hh <;> simp [List.take, hh0, hb]
      | cons r0 rest2 =>
        rcases hbad with hb | hb
        · simp [hb]
        · cases hh0 : pyInt hh <;> simp [List.take, hh0, hb]
  · intro hms hh mm sf rest2 hsplit hsf
    constructor
    · unfold BusesApp.to_sec
      rw [hsplit]
      cases hh0 : pyInt hh <;> cases hm0 : pyInt mm <;> simp [hh0, hm0, hsf]
    · unfold IngestGtfs.to_sec
      rw [pySplit_pad, hsplit]
      cases hh0 : pyInt hh <;> cases hm0 : pyInt mm <;> simp [List.take, hh0, hm0, hsf]
  · intro hms w hsplit
    constructor
    · unfold BusesApp.to_sec
      rw [hsplit]
    · unfold IngestGtfs.to_sec
      rw [pySplit_pad, hsplit]
      rfl

/-- Witness for C6: both parsers on 07:45 and on 25:00:30 (hours above 23),
failure on a non-numeric minutes field, and failure on a non-numeric third
field. -/
theorem time_parse_witness :
    (BusesApp.to_sec "07:45" = some 27900 ∧ IngestGtfs.to_sec "07:45" = some 27900)
      ∧ (BusesApp.to_sec "25:00:30" = some 90030 ∧ IngestGtfs.to_sec "25:00:30" = some 90030)
      ∧ (BusesApp.to_sec "7:xx" = none ∧ IngestGtfs.to_sec "7:xx" = none)
      ∧ (BusesApp.to_sec "1:2:xx" = none ∧ IngestGtfs.to_sec "1:2:xx" = none) := by
  refine ⟨time_parse_amended.1 "07:45" "07" "45" 7 45 rfl rfl rfl,
    time_parse_amended.2.1 "25:00:30" "25" "00" "30" 25 0 30 rfl rfl rfl rfl,
    time_parse_amended.2.2.1 "7:xx" "7" "xx" [] rfl (Or.inr rfl),
    time_parse_amended.2.2.2.1 "1:2:xx" "1" "2" "xx" [] rfl rfl⟩

/- ### C7: the spatial filter -/

/-- C7: the near-stops predicate holds iff the squared planar distance from
the stop's stored projected coordinates to the projected query point is at
most radius squared; equality is included, anything strictly farther is
excluded; and every stored stop passing the feed filter and the predicate
yields its row of the near_stops CTE. -/
theorem spatial_filter_inclusive (x0 y0 : ℚ) (radius_ft : Int) (st : StopRow) :
    (BusesApp.nearCond x0 y0 radius_ft st = true ↔
      (st.x2263 - x0) ^ 2 + (st.y2263 - y0) ^ 2 ≤ ((radius_ft : ℚ)) ^ 2)
    ∧ ((st.x2263 - x0) ^ 2 + (st.y2263 - y0) ^ 2 = ((radius_ft : ℚ)) ^ 2 →
        BusesApp.nearCond x0 y0 radius_ft st = true)
    ∧ (((radius_ft : ℚ)) ^ 2 < (st.x2263 - x0) ^ 2 + (st.y2263 - y0) ^ 2 →
        BusesApp.nearCond x0 y0 radius_ft st = false)
    ∧ (∀ (store : Store) (sel : List String), st ∈ store.dim_stops →
        BusesApp.feedPred sel st.feed_id = true →
        BusesApp.nearCond x0 y0 radius_ft st = true →
        BusesApp.NearStop.mk st.stop_id st.stop_name st.lat st.lon ∈
          BusesApp.nearStops store x0 y0 radius_ft sel) := by
  have hiff : BusesApp.nearCond x0 y0 radius_ft st = true ↔
      (st.x2263 - x0) ^ 2 + (st.y2263 - y0) ^ 2 ≤ ((radius_ft : ℚ)) ^ 2 := by
    simp only [BusesApp.nearCond, decide_eq_true_eq, pow_two]
  refine ⟨hiff, fun h => hiff.mpr (le_of_eq h), fun h => ?_, fun store sel hmem hfp hnear => ?_⟩
  · cases hb : BusesApp.nearCond x0 y0 radius_ft st with
    | false => rfl
    | true => exact absurd (hiff.mp hb) (not_le.mpr h)
  · exact List.mem_map.mpr ⟨st, List.mem_filter.mpr ⟨hmem, by simp [hfp, hnear]⟩, rfl⟩

/-- Witness for C7: a 3-4-5 stop at exactly radius 5 is near, a stop strictly
farther is not. -/
theorem spatial_filter_witness :
    BusesApp.nearCond 0 0 5 stopOnBoundary = true
      ∧ BusesApp.nearCond 0 0 5 stopBeyond = false := by
  constructor
  · exact (spatial_filter_inclusive 0 0 5 stopOnBoundary).2.1 (by norm_num [stopOnBoundary])
  · exact (spatial_filter_inclusive 0 0 5 stopBeyond).2.2.1 (by norm_num [stopBeyond])

/- ### C8: active-service selection by day type -/

/-- C8: the calendar predicate resolves Weekday to the Monday-Friday flag
disjunction and Saturday/Sunday to their single flags; consequently a
(feed, service) pair whose calendar rows are never active Monday-Friday is
absent from the Weekday svcs CTE, and any calendar row passing the feed
filter with its Saturday flag set contributes its pair to the Saturday svcs
CTE. -/
theorem day_type_disjunction :
    (∀ c : CalRow,
      (BusesApp.dayActive "Weekday" c = true ↔
        (c.monday = 1 ∨ c.tuesday = 1 ∨ c.wednesday = 1 ∨ c.thursday = 1 ∨ c.friday = 1))
      ∧ (BusesApp.dayActive "Saturday" c = true ↔ c.saturday = 1)
      ∧ (BusesApp.dayActive "Sunday" c = true ↔ c.sunday = 1))
    ∧ (∀ (store : Store) (sel : List String) (fid sid : String),
        (∀ c ∈ store.calendar_base, c.feed_id = fid → c.service_id = sid →
          (c.monday = 0 ∧ c.tuesday = 0 ∧ c.wednesday = 0 ∧ c.thursday = 0 ∧ c.friday = 0)) →
        BusesApp.Svc.mk fid sid ∉ BusesApp.svcs store "Weekday" sel)
    ∧ (∀ (store : Store) (sel : List String) (c : CalRow), c ∈ store.calendar_base →
        BusesApp.feedPred sel c.feed_id = true → c.saturday = 1 →
        BusesApp.Svc.mk c.feed_id c.service_id ∈ BusesApp.svcs store "Saturday" sel) := by
  have hday : ∀ c : CalRow,
      (BusesApp.dayActive "Weekday" c = true ↔
        (c.monday = 1 ∨ c.tuesday = 1 ∨ c.wednesday = 1 ∨ c.thursday = 1 ∨ c.friday = 1))
      ∧ (BusesApp.dayActive "Saturday" c = true ↔ c.saturday = 1)
      ∧ (BusesApp.dayActive "Sunday" c = true ↔ c.sunday = 1) := by
    intro c
    have e1 : (("Weekday" : String) == "Weekday") = true := rfl
    have e2 : (("Weekday" : String) == "Saturday") = false := rfl
    have e3 : (("Weekday" : String) == "Sunday") = false := rfl
    have e4 : (("Saturday" : String) == "Weekday") = false := rfl
    have e5 : (("Saturday" : String) == "Saturday") = true := rfl
    have e6 : (("Saturday" : String) == "Sunday") = false := rfl
    have e7 : (("Sunday" : String) == "Weekday") = false := rfl
    have e8 : (("Sunday" : String) == "Saturday") = false := rfl
    have e9 : (("Sunday" : String) == "Sunday") = true := rfl
    refine ⟨?_, ?_, ?_⟩ <;>
      simp [BusesApp.dayActive, e1, e2, e3, e4, e5, e6, e7, e8, e9, beq_iff_eq, or_assoc]
  refine ⟨hday, fun store sel fid sid hflags hmem => ?_, fun store sel c hc hfp hsat => ?_⟩
  · obtain ⟨c, hcf, hcmk⟩ := List.mem_map.mp (List.mem_dedup.mp hmem)
    obtain ⟨hcb, hcond⟩ := List.mem_filter.mp hcf
    obtain ⟨hfid, hsid⟩ : c.feed_id = fid ∧ c.service_id = sid := by
      have := hcmk
      simp only [BusesApp.Svc.mk.injEq] at this
      exact this
    have hactive : BusesApp.dayActive "Weekday" c = true := by
      rw [Bool.and_eq_true] at hcond
      exact hcond.2
    have hone := (hday c).1.mp hactive
    have hzero := hflags c hcb hfid hsid
    omega
  · refine List.mem_dedup.mpr (List.mem_map.mpr ⟨c, List.mem_filter.mpr ⟨hc, ?_⟩, rfl⟩)
    have hactive : BusesApp.dayActive "Saturday" c = true := (hday c).2.1.mpr hsat
    rw [hfp, hactive]
    rfl

/-- Witness for C8: the Saturday-only fixture service is absent from the
Weekday selection and present in the Saturday selection. -/
theorem day_type_disjunction_witness :
    BusesApp.Svc.mk "A" "SAT" ∉ BusesApp.svcs storeSat "Weekday" []
      ∧ BusesApp.Svc.mk "A" "SAT" ∈ BusesApp.svcs storeSat "Saturday" [] := by
  constructor
  · exact day_type_disjunction.2.1 storeSat [] "A" "SAT" (by decide)
  · exact day_type_disjunction.2.2 storeSat [] calSatOnly (by simp [storeSat]) rfl rfl

/- ### C9: the stop_times to trips inner join -/

theorem filter_length_eq_ite {α : Type} (l : List α) (q : α → Bool)
    (h : (l.filter q).length ≤ 1) :
    (l.filter q).length = if l.any q then 1 else 0 := by
  cases ha : l.any q with
  | false =>
    have hnil : l.filter q = [] := List.filter_eq_nil_iff.mpr (by
      intro a hal hq
      exact absurd ha (by simp [List.any_eq_true]; exact ⟨a, hal, hq⟩))
    simp [hnil]
  | true =>
    obtain ⟨x, hx, hq⟩ := List.any_eq_true.mp ha
    have hmem : x ∈ l.filter q := List.mem_filter.mpr ⟨hx, hq⟩
    have hpos : 0 < (l.filter q).length := List.length_pos.mpr (fun he => by simp [he] at hmem)
    have h1 : (l.filter q).length = 1 := le_antisymm h hpos
    simp [h1]

/-- C9: the fact table build never fails on a dangling trip_id: provided
every arrival time parses and trip_ids are unique among the trips (the
data-model invariant), the build succeeds, each stop_time row whose trip_id
matches no trip contributes no row, and each one whose trip_id matches
contributes exactly one, so the output length is the number of matched
stop_time rows. -/
theorem fact_inner_join (feed : String) (sts : List IngestGtfs.RawStopTime)
    (trips : List IngestGtfs.IngTrip)
    (hparse : ∀ s0 ∈ sts, (IngestGtfs.to_sec s0.arrival_time).isSome = true)
    (huniq : ∀ s0 ∈ sts, (trips.filter (fun tr => tr.trip_id == s0.trip_id)).length ≤ 1) :
    ∃ l, IngestGtfs.factTable feed sts trips = some l ∧
      l.length = (sts.filter (fun s0 =>
        trips.any (fun tr => tr.trip_id == s0.trip_id))).length := by
  induction sts with
  | nil => exact ⟨[], rfl, rfl⟩
  | cons s0 rest ih =>
    obtain ⟨sec, hsec⟩ := Option.isSome_iff_exists.mp (hparse s0 (by simp))
    obtain ⟨lr, hlr, hlen⟩ :=
      ih (fun x hx => hparse x (by simp [hx])) (fun x hx => huniq x (by simp [hx]))
    obtain ⟨ps, hps, hg⟩ : ∃ ps, rest.mapM IngestGtfs.withSec = some ps ∧
        ps.flatMap (IngestGtfs.factFromPair feed trips) = lr := by
      unfold IngestGtfs.factTable at hlr
      cases hmm : rest.mapM IngestGtfs.withSec with
      | none => rw [hmm] at hlr; simp at hlr
      | some ps =>
        rw [hmm] at hlr
        simp at hlr
        exact ⟨ps, rfl, hlr⟩
    have hws : IngestGtfs.withSec s0 = some (s0, sec) := by
      simp [IngestGtfs.withSec, hsec]
    refine ⟨IngestGtfs.factFromPair feed trips (s0, sec) ++ lr, ?_, ?_⟩
    · unfold IngestGtfs.factTable
      rw [List.mapM_cons, hws, hps]
      show some (IngestGtfs.factFromPair feed trips (s0, sec) ++
        ps.flatMap (IngestGtfs.factFromPair feed trips)) = _
      rw [hg]
    · rw [List.length_append, hlen]
      have hfp : (IngestGtfs.factFromPair feed trips (s0, sec)).length =
          (trips.filter (fun tr => tr.trip_id == s0.trip_id)).length := by
        simp [IngestGtfs.factFromPair]
      rw [hfp, filter_length_eq_ite _ _ (huniq s0 (by simp)), List.filter_cons]
      cases hA : trips.any (fun tr => tr.trip_id == s0.trip_id) <;> simp [hA]
      omega

/-- Witness for C9: one matched and one orphaned stop_time against a single
trip produce exactly one stop-event. -/
theorem fact_inner_join_witness :
    ∃ l, IngestGtfs.factTable "F" [stMatched, stOrphan] [trFixture] = some l ∧
      l.length = ([stMatched, stOrphan].filter (fun s0 =>
        [trFixture].any (fun tr => tr.trip_id == s0.trip_id))).length :=
  fact_inner_join "F" [stMatched, stOrphan] [trFixture] (by decide) (by decide)

/- ### C5: schema normalization -/

namespace IngestGtfs

theorem contains_true_iff (l : List String) (c : String) : l.contains c = true ↔ c ∈ l := by
  induction l with
  | nil => simp [List.contains]
  | cons b l ih =>
    show (c == b || l.elem c) = true ↔ _
    rw [Bool.or_eq_true]
    constructor
    · rintro (h | h)
      · exact List.mem_cons.mpr (Or.inl (by simpa using h))
      · exact List.mem_cons.mpr (Or.inr (ih.mp h))
    · intro h
      rcases List.mem_cons.mp h with rfl | h2
      · exact Or.inl (by simp)
      · exact Or.inr (ih.mpr h2)

theorem lookupCell_cons (p : String × Cell) (r : DRow) (c : String) :
    lookupCell (p :: r) c = if p.1 == c then p.2 else lookupCell r c := rfl

theorem lookupCell_setCell_self (r : DRow) (c : String) (v : Cell) :
    lookupCell (setCell r c v) c = v := by
  induction r with
  | nil => simp [setCell, lookupCell]
  | cons p rest ih =>
    by_cases h : (p.1 == c) = true
    · simp [setCell, lookupCell, h]
    · simp [setCell, lookupCell, h, ih]

theorem lookupCell_setCell_ne (r : DRow) (c c2 : String) (v : Cell) (h : c2 ≠ c) :
    lookupCell (setCell r c v) c2 = lookupCell r c2 := by
  have hcc : (c == c2) = false := beq_eq_false_iff_ne.mpr (Ne.symm h)
  induction r with
  | nil => simp [setCell, lookupCell, hcc]
  | cons p rest ih =>
    by_cases hp : (p.1 == c) = true
    · have hp2 : (p.1 == c2) = false := by
        have he : p.1 = c := by simpa using hp
        rw [he]; exact hcc
      simp [setCell, lookupCell, hp, hp2, hcc, ih]
    · simp [setCell, lookupCell, hp, ih]

theorem rows_assignConst (df : DF) (c : String) (v : Cell) :
    (df.assignConst c v).rows = df.rows.map (fun r => setCell r c v) := rfl

theorem rows_mk (cols : List String) (rows : List DRow) : (DF.mk cols rows).rows = rows := rfl

theorem rows_assignWith (df : DF) (c : String) (fn : DRow → Cell) :
    (df.assignWith c fn).rows = df.rows.map (fun r => setCell r c (fn r)) := rfl

theorem hasCol_assignConst_self (df : DF) (c : String) (v : Cell) :
    (df.assignConst c v).hasCol c = true := by
  show (if df.cols.contains c then df.cols else df.cols ++ [c]).contains c = true
  by_cases h : df.cols.contains c = true
  · rw [if_pos h]; exact h
  · rw [if_neg h, contains_true_iff]
    exact List.mem_append_right _ (List.mem_singleton_self c)

theorem hasCol_assignConst_mono (df : DF) (c c2 : String) (v : Cell)
    (h : df.hasCol c2 = true) : (df.assignConst c v).hasCol c2 = true := by
  show (if df.cols.contains c then df.cols else df.cols ++ [c]).contains c2 = true
  by_cases hc : df.cols.contains c = true
  · rw [if_pos hc]; exact h
  · rw [if_neg hc, contains_true_iff]
    exact List.mem_append_left _ ((contains_true_iff _ _).mp h)

theorem hasCol_assignConst_ne (df : DF) (c c2 : String) (v : Cell) (hne : c2 ≠ c)
    (h : df.hasCol c2 = false) : (df.assignConst c v).hasCol c2 = false := by
  show (if df.cols.contains c then df.cols else df.cols ++ [c]).contains c2 = false
  have h0 : df.cols.contains c2 = false := h
  have h1 : c2 ∉ df.cols := fun hm => by rw [(contains_true_iff _ _).mpr hm] at h0; cases h0
  by_cases hc : df.cols.contains c = true
  · rw [if_pos hc]; exact h
  · rw [if_neg hc]
    have h2 : c2 ∉ df.cols ++ [c] := by simp [h1, hne]
    cases hb : (df.cols ++ [c]).contains c2 with
    | false => rfl
    | true => exact absurd ((contains_true_iff _ _).mp hb) h2

theorem fillMissing_cons (df : DF) (c : String) (cs : List String) :
    fillMissing df (c :: cs) =
      fillMissing (if df.hasCol c then df else df.assignConst c none) cs := rfl

theorem fillMissing_hasCol_mono (cs : List String) (df : DF) (c2 : String)
    (h : df.hasCol c2 = true) : (fillMissing df cs).hasCol c2 = true := by
  induction cs generalizing df with
  | nil => exact h
  | cons c cs ih =>
    rw [fillMissing_cons]
    by_cases hc : df.hasCol c = true
    · rw [if_pos hc]; exact ih df h
    · rw [if_neg hc]; exact ih _ (hasCol_assignConst_mono df c c2 none h)

theorem fillMissing_hasCol (cs : List String) (df : DF) (c : String) (h : c ∈ cs) :
    (fillMissing df cs).hasCol c = true := by
  induction cs generalizing df with
  | nil => cases h
  | cons c0 cs ih =>
    rw [fillMissing_cons]
    rcases List.mem_cons.mp h with rfl | h2
    · by_cases hc : df.hasCol c = true
      · rw [if_pos hc]; exact fillMissing_hasCol_mono cs df c hc
      · rw [if_neg hc]; exact fillMissing_hasCol_mono cs _ c (hasCol_assignConst_self df c none)
    · by_cases hc : df.hasCol c0 = true
      · rw [if_pos hc]; exact ih df h2
      · rw [if_neg hc]; exact ih _ h2

theorem fillMissing_rows_preserved (cs : List String) (df : DF) (c2 : String) (v : Cell)
    (hcol : df.hasCol c2 = true) (hrows : ∀ r ∈ df.rows, lookupCell r c2 = v) :
    ∀ r ∈ (fillMissing df cs).rows, lookupCell r c2 = v := by
  induction cs generalizing df with
  | nil => exact hrows
  | cons c0 cs ih =>
    rw [fillMissing_cons]
    by_cases hc : df.hasCol c0 = true
    · rw [if_pos hc]; exact ih df hcol hrows
    · rw [if_neg hc]
      have hne : c2 ≠ c0 := fun he => hc (he ▸ hcol)
      refine ih _ (hasCol_assignConst_mono df c0 c2 none hcol) ?_
      intro r hr
      rw [rows_assignConst] at hr
      obtain ⟨r0, hr0, rfl⟩ := List.mem_map.mp hr
      rw [lookupCell_setCell_ne r0 c0 c2 none hne]
      exact hrows r0 hr0

theorem fillMissing_rows_none (cs : List String) (df : DF) (c : String)
    (hmem : c ∈ cs) (hcol : df.hasCol c = false) :
    ∀ r ∈ (fillMissing df cs).rows, lookupCell r c = none := by
  induction cs generalizing df with
  | nil => cases hmem
  | cons c0 cs ih =>
    rw [fillMissing_cons]
    rcases eq_or_ne c c0 with rfl | hne
    · rw [if_neg (by simp [hcol])]
      refine fillMissing_rows_preserved cs _ c none (hasCol_assignConst_self df c none) ?_
      intro r hr
      rw [rows_assignConst] at hr
      obtain ⟨r0, hr0, rfl⟩ := List.mem_map.mp hr
      exact lookupCell_setCell_self r0 c none
    · have hmem2 : c ∈ cs := by
        rcases List.mem_cons.mp hmem with h | h
        · exact absurd h hne
        · exact h
      by_cases hc : df.hasCol c0 = true
      · rw [if_pos hc]; exact ih df hmem2 hcol
      · rw [if_neg hc]; exact ih _ hmem2 (hasCol_assignConst_ne df c0 c none hne hcol)

theorem select_eq_some (df : DF) (cs : List String) (h : ∀ c ∈ cs, df.hasCol c = true) :
    df.select cs =
      some (DF.mk cs (df.rows.map (fun r => cs.map (fun c => (c, lookupCell r c))))) := by
  unfold DF.select
  have hall : (cs.all fun c => df.cols.contains c) = true := List.all_eq_true.mpr h
  rw [if_pos hall]

theorem lookupCell_projRow (cs : List String) (r : DRow) (c : String) (h : c ∈ cs) :
    lookupCell (cs.map (fun c2 => (c2, lookupCell r c2))) c = lookupCell r c := by
  induction cs with
  | nil => cases h
  | cons c0 cs ih =>
    simp only [List.map_cons, lookupCell_cons]
    by_cases he : (c0 == c) = true
    · have hc0 : c0 = c := by simpa using he
      simp [he, hc0]
    · have h2 : c ∈ cs := by
        rcases List.mem_cons.mp h with rfl | hx
        · exact absurd (by simp) he
        · exact hx
      simp [he, ih h2]

/-- C5 counterexample: a raw trips table lacking the required trip_headsign
column makes the build fail (pandas KeyError) instead of null-filling it. -/
theorem schema_normalization_counterexample :
    normTrips "A" rawTripsNoHeadsign = none := rfl

/-- C5 amended: the fixed, ordered required column set with null-fill for
absent columns and a feed_id stamp on every row holds for the stops and
routes tables only; the trips table is a bare column selection that fails
when a listed column is absent (and stamps feed_id when it succeeds), and
the calendar table is passed through with only the feed_id stamp, with no
required column set at all. -/
theorem schema_normalization_amended :
    (∀ (feed : String) (proj : Cell → Cell → Cell × Cell) (raw : DF),
      ∃ d, normStops feed proj raw = some d
        ∧ d.cols = STOP_COLS ++ ["x2263", "y2263"]
        ∧ (∀ r ∈ d.rows, lookupCell r "feed_id" = some feed)
        ∧ (∀ c ∈ STOP_COLS, c ≠ "feed_id" → (raw.renameCols stopRename).hasCol c = false →
            ∀ r ∈ d.rows, lookupCell r c = none))
    ∧ (∀ (feed : String) (raw : DF),
      ∃ d, normRoutes feed raw = some d
        ∧ d.cols = ROUTES_COLS
        ∧ (∀ r ∈ d.rows, lookupCell r "feed_id" = some feed)
        ∧ (∀ c ∈ ROUTES_COLS, c ≠ "feed_id" → raw.hasCol c = false →
            ∀ r ∈ d.rows, lookupCell r c = none))
    ∧ (∀ (feed : String) (raw : DF), (¬ ∀ c ∈ TRIP_COLS, raw.hasCol c = true) →
        normTrips feed raw = none)
    ∧ (∀ (feed : String) (raw : DF), (∀ c ∈ TRIP_COLS, raw.hasCol c = true) →
        ∃ d, normTrips feed raw = some d
          ∧ d.cols = TRIP_COLS ++ ["feed_id"]
          ∧ (∀ r ∈ d.rows, lookupCell r "feed_id" = some feed))
    ∧ (∀ (feed : String) (raw : DF),
        (normCalendar feed raw).rows = raw.rows.map (fun r => setCell r "feed_id" (some feed))
          ∧ ∀ r ∈ (normCalendar feed raw).rows, lookupCell r "feed_id" = some feed) := by
  refine ⟨?_, ?_, ?_, ?_, ?_⟩
  · -- stops
    intro feed proj raw
    have hs0rows : ∀ r ∈ (stopsStage0 feed raw).rows, lookupCell r "feed_id" = some feed := by
      intro r hr
      unfold stopsStage0 at hr
      rw [rows_assignConst] at hr
      obtain ⟨r0, hr0, rfl⟩ := List.mem_map.mp hr
      exact lookupCell_setCell_self r0 "feed_id" (some feed)
    have hs0col : (stopsStage0 feed raw).hasCol "feed_id" = true :=
      hasCol_assignConst_self _ _ _
    have hs1cols : (stopsStage1 feed raw).cols = (stopsStage0 feed raw).cols := by
      unfold stopsStage1
      by_cases h : (stopsStage0 feed raw).hasCol "stop_desc" = true
      · rw [if_pos h]; rfl
      · rw [if_neg h]
    have hs1col : (stopsStage1 feed raw).hasCol "feed_id" = true := by
      show (stopsStage1 feed raw).cols.contains "feed_id" = true
      rw [hs1cols]; exact hs0col
    have hs1rows : ∀ r ∈ (stopsStage1 feed raw).rows, lookupCell r "feed_id" = some feed := by
      unfold stopsStage1
      by_cases h : (stopsStage0 feed raw).hasCol "stop_desc" = true
      · rw [if_pos h]
        intro r hr
        obtain ⟨r0, hr0, rfl⟩ := List.mem_map.mp hr
        rw [lookupCell_setCell_ne _ _ _ _ (by decide : "feed_id" ≠ "stop_desc")]
        exact hs0rows r0 hr0
      · rw [if_neg h]; exact hs0rows
    have hs2all : ∀ c ∈ STOP_COLS, (stopsStage2 feed raw).hasCol c = true :=
      fun c hc => fillMissing_hasCol _ _ c hc
    have hs2feed : ∀ r ∈ (stopsStage2 feed raw).rows, lookupCell r "feed_id" = some feed :=
      fillMissing_rows_preserved _ _ _ _ hs1col hs1rows
    have hsel := select_eq_some (stopsStage2 feed raw) STOP_COLS hs2all
    have hkey : normStops feed proj raw = some
        (((DF.mk STOP_COLS ((stopsStage2 feed raw).rows.map
            (fun r => STOP_COLS.map (fun c => (c, lookupCell r c))))).assignWith "x2263"
            (fun r => (proj (lookupCell r "lon") (lookupCell r "lat")).1)).assignWith "y2263"
            (fun r => (proj (lookupCell r "lon") (lookupCell r "lat")).2)) := by
      unfold normStops
      rw [hsel]
      rfl
    refine ⟨_, hkey, rfl, ?_, ?_⟩
    · intro r hr
      rw [rows_assignWith, rows_assignWith, rows_mk] at hr
      obtain ⟨r1, hr1, rfl⟩ := List.mem_map.mp hr
      obtain ⟨r2, hr2, rfl⟩ := List.mem_map.mp hr1
      obtain ⟨r0, hr0, rfl⟩ := List.mem_map.mp hr2
      rw [lookupCell_setCell_ne _ _ _ _ (by decide : "feed_id" ≠ "y2263"),
        lookupCell_setCell_ne _ _ _ _ (by decide : "feed_id" ≠ "x2263"),
        lookupCell_projRow STOP_COLS r0 "feed_id" (by decide)]
      exact hs2feed r0 hr0
    · intro c hcST hcne hrawcol r hr
      have h0 : (stopsStage0 feed raw).hasCol c = false :=
        hasCol_assignConst_ne _ "feed_id" c _ hcne hrawcol
      have h1 : (stopsStage1 feed raw).hasCol c = false := by
        show (stopsStage1 feed raw).cols.contains c = false
        rw [hs1cols]; exact h0
      have h2 := fillMissing_rows_none STOP_COLS (stopsStage1 feed raw) c hcST h1
      have hx : c ≠ "x2263" := fun he => by rw [he] at hcST; exact absurd hcST (by decide)
      have hy : c ≠ "y2263" := fun he => by rw [he] at hcST; exact absurd hcST (by decide)
      rw [rows_assignWith, rows_assignWith, rows_mk] at hr
      obtain ⟨r1, hr1, rfl⟩ := List.mem_map.mp hr
      obtain ⟨r2, hr2, rfl⟩ := List.mem_map.mp hr1
      obtain ⟨r0, hr0, rfl⟩ := List.mem_map.mp hr2
      rw [lookupCell_setCell_ne _ _ _ _ hy, lookupCell_setCell_ne _ _ _ _ hx,
        lookupCell_projRow STOP_COLS r0 c hcST]
      exact h2 r0 hr0
  · -- routes
    intro feed raw
    have hr0rows : ∀ r ∈ (raw.assignConst "feed_id" (some feed)).rows,
        lookupCell r "feed_id" = some feed := by
      intro r hr
      rw [rows_assignConst] at hr
      obtain ⟨r0, hr0, rfl⟩ := List.mem_map.mp hr
      exact lookupCell_setCell_self r0 "feed_id" (some feed)
    have hr0col : (raw.assignConst "feed_id" (some feed)).hasCol "feed_id" = true :=
      hasCol_assignConst_self _ _ _
    have hall : ∀ c ∈ ROUTES_COLS, (routesStage feed raw).hasCol c = true :=
      fun c hc => fillMissing_hasCol _ _ c hc
    have hfeed : ∀ r ∈ (routesStage feed raw).rows, lookupCell r "feed_id" = some feed :=
      fillMissing_rows_preserved _ _ _ _ hr0col hr0rows
    have hsel := select_eq_some (routesStage feed raw) ROUTES_COLS hall
    have hkey : normRoutes feed raw = some
        (DF.mk ROUTES_COLS ((routesStage feed raw).rows.map
          (fun r => ROUTES_COLS.map (fun c => (c, lookupCell r c))))) := by
      unfold normRoutes
      rw [hsel]
    refine ⟨_, hkey, rfl, ?_, ?_⟩
    · intro r hr
      rw [rows_mk] at hr
      obtain ⟨r0, hr0, rfl⟩ := List.mem_map.mp hr
      rw [lookupCell_projRow ROUTES_COLS r0 "feed_id" (by decide)]
      exact hfeed r0 hr0
    · intro c hcR hcne hrawcol r hr
      have h0 : (raw.assignConst "feed_id" (some feed)).hasCol c = false :=
        hasCol_assignConst_ne _ "feed_id" c _ hcne hrawcol
      have h2 := fillMissing_rows_none ROUTES_COLS _ c hcR h0
      rw [rows_mk] at hr
      obtain ⟨r0, hr0, rfl⟩ := List.mem_map.mp hr
      rw [lookupCell_projRow ROUTES_COLS r0 c hcR]
      exact h2 r0 hr0
  · -- trips, missing column
    intro feed raw h
    unfold normTrips DF.select
    have hne : ¬ ((TRIP_COLS.all fun c => raw.cols.contains c) = true) :=
      fun hh => h (List.all_eq_true.mp hh)
    rw [if_neg hne]
    rfl
  · -- trips, all columns present
    intro feed raw h
    have hsel := select_eq_some raw TRIP_COLS h
    have hkey : normTrips feed raw = some
        ((DF.mk TRIP_COLS (raw.rows.map
          (fun r => TRIP_COLS.map (fun c => (c, lookupCell r c))))).assignConst "feed_id"
            (some feed)) := by
      unfold normTrips
      rw [hsel]
      rfl
    refine ⟨_, hkey, rfl, ?_⟩
    intro r hr
    rw [rows_assignConst, rows_mk] at hr
    obtain ⟨r1, hr1, rfl⟩ := List.mem_map.mp hr
    exact lookupCell_setCell_self r1 "feed_id" (some feed)
  · -- calendar
    intro feed raw
    refine ⟨rfl, ?_⟩
    intro r hr
    unfold normCalendar at hr
    rw [rows_assignConst] at hr
    obtain ⟨r0, hr0, rfl⟩ := List.mem_map.mp hr
    exact lookupCell_setCell_self r0 "feed_id" (some feed)

/-- Witness for C5: the trips failure conjunct applied to a concrete table
lacking service_id, and the stops conjunct applied to a minimal raw table. -/
theorem schema_normalization_witness :
    normTrips "B" rawTripsNoService = none
      ∧ ∃ d, normStops "A" projZero rawStopsMini = some d
          ∧ d.cols = STOP_COLS ++ ["x2263", "y2263"] := by
  constructor
  · exact schema_normalization_amended.2.2.1 "B" rawTripsNoService (by decide)
  · obtain ⟨d, hd, hcols, -, -⟩ := schema_normalization_amended.1 "A" projZero rawStopsMini
    exact ⟨d, hd, hcols⟩

end IngestGtfs

/- ### C10: every result row counts at least one stop-event -/

/-- C10: whenever the query returns a result set, every returned row has
buses_scheduled at least 1: a group key exists only because some joined
stop-event produced it, so zero-count rows are never emitted. -/
theorem buses_scheduled_positive (x0 y0 : ℚ) (st et day : String) (radius : Int)
    (sel : List String) (store : Store) (l : List BusesApp.OutRow)
    (h : BusesApp.buses_by_stop_route_dir_within_radius x0 y0 st et day radius sel store =
      Except.ok l) :
    ∀ row ∈ l, 1 ≤ row.buses_scheduled := by
  intro row hrow
  unfold BusesApp.buses_by_stop_route_dir_within_radius at h
  cases hs : BusesApp.to_sec st with
  | none => rw [hs] at h; simp at h
  | some s =>
    cases he : BusesApp.to_sec et with
    | none => rw [hs, he] at h; simp at h
    | some e =>
      rw [hs, he] at h
      by_cases hb : BusesApp.boundParamCount sel = BusesApp.placeholderCount sel
      · simp only [hb, if_true, Except.ok.injEq] at h
        subst h
        have hrow2 := mem_sortRows.mp hrow
        unfold BusesApp.aggregate at hrow2
        obtain ⟨k, hk, rfl⟩ := List.mem_map.mp hrow2
        obtain ⟨j, hj, hjk⟩ := List.mem_map.mp (List.mem_dedup.mp hk)
        exact List.countP_pos_iff.mpr ⟨j, hj, by simp [hjk]⟩
      · simp only [if_neg hb] at h
        simp at h

/-- Evaluation of the query on the clean single-feed store. -/
theorem storeOne_eval :
    BusesApp.buses_by_stop_route_dir_within_radius 0 0 "07:45" "08:45" "Weekday" 250 ["F"]
      storeOne = Except.ok [rowOne] := by
  have hns : BusesApp.nearStops storeOne 0 0 250 ["F"] =
      [BusesApp.NearStop.mk "S1" "Main St" 5 6] := by
    simp only [BusesApp.nearStops, storeOne, List.filter_cons, List.filter_nil]
    norm_num [BusesApp.nearCond, BusesApp.feedPred]
  calc
    BusesApp.buses_by_stop_route_dir_within_radius 0 0 "07:45" "08:45" "Weekday" 250 ["F"]
        storeOne
      = Except.ok (BusesApp.sortRows (BusesApp.aggregate (BusesApp.joinedRows
          storeOne.fact_stop_events storeOne.dim_trips storeOne.dim_routes
          (BusesApp.svcs storeOne "Weekday" ["F"])
          (BusesApp.nearStops storeOne 0 0 250 ["F"]) 27900 31500))) := rfl
    _ = Except.ok [rowOne] := by rw [hns]; rfl

/-- Witness for C10 on the single-feed fixture's one result row. -/
theorem buses_scheduled_positive_witness : 1 ≤ rowOne.buses_scheduled :=
  buses_scheduled_positive 0 0 "07:45" "08:45" "Weekday" 250 ["F"] storeOne [rowOne]
    storeOne_eval rowOne (by simp)

/- ### C1: feed isolation of the joins -/

/-- C1: evaluated on two feeds that reuse stop_id 101, route_id R1 and
service_id S, a query restricted to feed A alone returns a row whose
feed_id is B: feed B's stop event and trip join feed A's service and stop
because the routes, svcs and near_stops joins repeat f.feed_id = t.feed_id
instead of matching the joined table's own feed_id, and the fact table is
never restricted to the allow-list. -/
theorem cross_feed_join_bug_eval :
    BusesApp.buses_by_stop_route_dir_within_radius 0 0 "07:45" "08:45" "Weekday" 250 ["A"]
      storeAB = Except.ok [BusesApp.OutRow.mk "B" "R1" 0 "101" "Stop A" 1 2 1] := by
  have hns : BusesApp.nearStops storeAB 0 0 250 ["A"] =
      [BusesApp.NearStop.mk "101" "Stop A" 1 2] := by
    simp only [BusesApp.nearStops, storeAB, List.filter_cons, List.filter_nil]
    norm_num [BusesApp.nearCond, BusesApp.feedPred]
  calc
    BusesApp.buses_by_stop_route_dir_within_radius 0 0 "07:45" "08:45" "Weekday" 250 ["A"]
        storeAB
      = Except.ok (BusesApp.sortRows (BusesApp.aggregate (BusesApp.joinedRows
          storeAB.fact_stop_events storeAB.dim_trips storeAB.dim_routes
          (BusesApp.svcs storeAB "Weekday" ["A"])
          (BusesApp.nearStops storeAB 0 0 250 ["A"]) 27900 31500))) := rfl
    _ = Except.ok [BusesApp.OutRow.mk "B" "R1" 0 "101" "Stop A" 1 2 1] := by rw [hns]; rfl

/- ### C2: the empty feed allow-list -/

/-- C2: with an empty allow-list the call fails with a prepared-statement
binding mismatch (the SQL keeps its 11 day-type, window and spatial
placeholders but the params list is built only inside the nonempty-selection
branch), while explicitly listing every feed of the store returns rows; the
two invocations are therefore not equivalent, and the empty list means a
failure rather than all feeds. -/
theorem empty_feed_list_bug_eval :
    BusesApp.buses_by_stop_route_dir_within_radius 0 0 "07:45" "08:45" "Weekday" 250 []
        storeAB = Except.error (BusesApp.QueryFailure.bindMismatch 11 0)
      ∧ BusesApp.buses_by_stop_route_dir_within_radius 0 0 "07:45" "08:45" "Weekday" 250
        ["A", "B"] storeAB =
          Except.ok [BusesApp.OutRow.mk "B" "R1" 0 "101" "Stop A" 1 2 2] := by
  constructor
  · rfl
  · have hns : BusesApp.nearStops storeAB 0 0 250 ["A", "B"] =
        [BusesApp.NearStop.mk "101" "Stop A" 1 2] := by
      simp only [BusesApp.nearStops, storeAB, List.filter_cons, List.filter_nil]
      norm_num [BusesApp.nearCond, BusesApp.feedPred]
    calc
      BusesApp.buses_by_stop_route_dir_within_radius 0 0 "07:45" "08:45" "Weekday" 250
          ["A", "B"] storeAB
        = Except.ok (BusesApp.sortRows (BusesApp.aggregate (BusesApp.joinedRows
            storeAB.fact_stop_events storeAB.dim_trips storeAB.dim_routes
            (BusesApp.svcs storeAB "Weekday" ["A", "B"])
            (BusesApp.nearStops storeAB 0 0 250 ["A", "B"]) 27900 31500))) := rfl
      _ = Except.ok [BusesApp.OutRow.mk "B" "R1" 0 "101" "Stop A" 1 2 2] := by rw [hns]; rfl

/- ### C3: behaviour on an unrecognized day_type -/

/-- C3 counterexample: with the unrecognized day_type Holiday the query does
not raise any typed failure; it returns an (empty) result set. -/
theorem config_error_counterexample :
    BusesApp.buses_by_stop_route_dir_within_radius 0 0 "07:45" "08:45" "Holiday" 250 ["A"]
      storeAB = Except.ok [] := rfl

/-- C3 amended: no day_type or radius validation exists and no ConfigError
type exists in the code; for any day_type other than the three recognized
values (and any radius, including non-positive ones), a call with a
nonempty feed selection and parseable times returns the empty result set,
because no calendar row satisfies the day-type disjunction. -/
theorem config_error_amended (x0 y0 : ℚ) (st et day : String) (radius : Int)
    (sel : List String) (store : Store) (s e : Int)
    (hw : day ≠ "Weekday") (hsa : day ≠ "Saturday") (hsu : day ≠ "Sunday")
    (hsel : sel ≠ []) (hs : BusesApp.to_sec st = some s) (he : BusesApp.to_sec et = some e) :
    BusesApp.buses_by_stop_route_dir_within_radius x0 y0 st et day radius sel store =
      Except.ok [] := by
  have hsv : BusesApp.svcs store day sel = [] := by
    unfold BusesApp.svcs
    have hf : store.calendar_base.filter
        (fun c => BusesApp.feedPred sel c.feed_id && BusesApp.dayActive day c) = [] := by
      apply List.filter_eq_nil_iff.mpr
      intro c hc
      have h1 : (day == "Weekday") = false := beq_eq_false_iff_ne.mpr hw
      have h2 : (day == "Saturday") = false := beq_eq_false_iff_ne.mpr hsa
      have h3 : (day == "Sunday") = false := beq_eq_false_iff_ne.mpr hsu
      simp [BusesApp.dayActive, h1, h2, h3]
    rw [hf]
    rfl
  have hjoin : BusesApp.joinedRows store.fact_stop_events store.dim_trips store.dim_routes
      (BusesApp.svcs store day sel) (BusesApp.nearStops store x0 y0 radius sel) s e = [] := by
    rw [hsv]
    unfold BusesApp.joinedRows
    apply flatMap_nil_of
    intro f hf2
    apply flatMap_nil_of
    intro t ht
    apply flatMap_nil_of
    intro r hr
    rfl
  have hb : BusesApp.boundParamCount sel = BusesApp.placeholderCount sel := by
    unfold BusesApp.boundParamCount BusesApp.placeholderCount
    have hne : sel.isEmpty = false := by
      cases sel with
      | nil => exact absurd rfl hsel
      | cons a l => rfl
    rw [hne]
    simp
  unfold BusesApp.buses_by_stop_route_dir_within_radius
  rw [hs, he]
  show (if BusesApp.boundParamCount sel = BusesApp.placeholderCount sel then
      Except.ok (BusesApp.sortRows (BusesApp.aggregate (BusesApp.joinedRows
        store.fact_stop_events store.dim_trips store.dim_routes
        (BusesApp.svcs store day sel) (BusesApp.nearStops store x0 y0 radius sel) s e)))
    else Except.error (BusesApp.QueryFailure.bindMismatch (BusesApp.placeholderCount sel)
      (BusesApp.boundParamCount sel))) = Except.ok []
  rw [if_pos hb, hjoin]
  rfl

/-- Witness for C3 at the made-up day_type Holi and a negative radius. -/
theorem config_error_witness :
    BusesApp.buses_by_stop_route_dir_within_radius 3 4 "10:00" "11:00" "Holi" (-5) ["Z"]
      storeOne = Except.ok [] :=
  config_error_amended 3 4 "10:00" "11:00" "Holi" (-5) ["Z"] storeOne 36000 39600
    (by decide) (by decide) (by decide) (by decide) rfl rfl
